import Mathlib

/-!
Verification development for the Cleandex API-monitoring engine
(source: src/backend/app.py).  The definitions below are a shallow
embedding of the Python code: pure functions become Lean functions,
the per-endpoint try/except block becomes a step function returning a
sum type, the sequential monitoring loop becomes explicit state
passing, and the uncaught-exception path becomes Except.error.
Numeric values (response times, scores, means) are modelled as exact
rationals; every concrete value appearing in a theorem is far from any
binary floating-point representation boundary, so Python float
arithmetic agrees with the rational model at those points.
-/

/-- Authentication type enumeration (src/backend/app.py lines 29-34). -/
inductive AuthType where
  | NONE
  | API_KEY
  | BEARER
  | BASIC
  | OAUTH2
deriving DecidableEq, Repr

/-- Authentication configuration (src/backend/app.py lines 37-44).
All credential fields are optional strings, as in the Pydantic model. -/
structure AuthConfig where
  auth_type : AuthType := AuthType.NONE
  api_key : Option String := Option.none
  bearer_token : Option String := Option.none
  username : Option String := Option.none
  password : Option String := Option.none
  client_id : Option String := Option.none
  client_secret : Option String := Option.none
deriving DecidableEq, Repr

/-- Python truthiness of an `Optional[str]` field: `None` and the empty
string are falsy, any other string is truthy. -/
def truthyStr : Option String → Bool
  | Option.none => false
  | some s => !s.isEmpty

/-- Availability component of the score (src/backend/app.py lines 78-84):
the cascaded `if status == 200 / elif 200 <= status < 300 /
elif status == 401` chain. -/
def availabilityScore (status : ℕ) : ℕ :=
  if status = 200 then 50
  else if 200 ≤ status ∧ status < 300 then 40
  else if status = 401 then 10
  else 0

/-- Performance component of the score (src/backend/app.py lines 86-92):
the cascaded `if response_time < 0.5 / elif < 1 / elif < 2` chain. -/
def performanceScore (response_time : ℚ) : ℕ :=
  if response_time < 1/2 then 30
  else if response_time < 1 then 20
  else if response_time < 2 then 10
  else 0

/-- Consistency component of the score (src/backend/app.py lines 94-96). -/
def consistencyScore (valid_format : Bool) : ℕ :=
  if valid_format then 20 else 0

/-- Reliability score (src/backend/app.py lines 74-98): the three
components are accumulated into `score` and the result is capped with
`min(100, score)`. -/
def calculate_api_score (status : ℕ) (response_time : ℚ) (valid_format : Bool) : ℕ :=
  min 100 (availabilityScore status + performanceScore response_time + consistencyScore valid_format)

/-- UTF-8 encoding of a single character, byte values as naturals
(model of Python `str.encode()` for one code point). -/
def utf8EncodeChar (c : Char) : List ℕ :=
  let n := c.toNat
  if n < 128 then [n]
  else if n < 2048 then [192 + n / 64, 128 + n % 64]
  else if n < 65536 then [224 + n / 4096, 128 + n / 64 % 64, 128 + n % 64]
  else [240 + n / 262144, 128 + n / 4096 % 64, 128 + n / 64 % 64, 128 + n % 64]

/-- UTF-8 encoding of a string as a list of byte values
(model of Python `str.encode()`). -/
def utf8Bytes (s : String) : List ℕ :=
  (s.toList.map utf8EncodeChar).flatten

/-- The standard base64 alphabet (RFC 4648), used by Python
`base64.b64encode`. -/
def b64Char (n : ℕ) : Char :=
  "ABCDEFGHIJKLMNOPQRSTUVWXYZabcdefghijklmnopqrstuvwxyz0123456789+/".toList.getD n 'A'

/-- Standard base64 encoding of a byte sequence (model of Python
`base64.b64encode(...).decode()`). -/
def base64Encode : List ℕ → String
  | [] => ""
  | [a] =>
    String.mk [b64Char (a / 4), b64Char (a % 4 * 16)] ++ "=="
  | [a, b] =>
    String.mk [b64Char (a / 4), b64Char (a % 4 * 16 + b / 16), b64Char (b % 16 * 4)] ++ "="
  | a :: b :: c :: rest =>
    String.mk [b64Char (a / 4), b64Char (a % 4 * 16 + b / 16),
               b64Char (b % 16 * 4 + c / 64), b64Char (c % 64)] ++ base64Encode rest

/-- Auth resolver (src/backend/app.py lines 100-116).  `headers` starts
empty; exactly one of the three guarded branches may add an entry.  The
guards mirror Python truthiness: `auth.api_key` is truthy iff it is a
non-empty string, and similarly for the other credential fields.
`AuthType.OAUTH2` matches no branch, so it contributes no header.
The function is total: incomplete credentials never raise. -/
def prepare_headers (auth : Option AuthConfig) : List (String × String) :=
  match auth with
  | Option.none => []
  | some a =>
    if a.auth_type = AuthType.API_KEY ∧ truthyStr a.api_key then
      [("X-API-KEY", a.api_key.getD (""))]
    else if a.auth_type = AuthType.BEARER ∧ truthyStr a.bearer_token then
      [("Authorization", "Bearer " ++ a.bearer_token.getD (""))]
    else if a.auth_type = AuthType.BASIC ∧ truthyStr a.username ∧ truthyStr a.password then
      [("Authorization", "Basic " ++
        base64Encode (utf8Bytes (a.username.getD ("") ++ ":" ++ a.password.getD (""))))]
    else []

/-- Rounding to `n` decimal places, the model of Python `round(x, n)`
on the exact rational value.  Python rounds ties on binary doubles to
even; no value appearing in any theorem below is a tie, and off ties
every round-to-nearest rule agrees with this definition. -/
def roundTo (n : ℕ) (x : ℚ) : ℚ :=
  (round (x * 10 ^ n) : ℚ) / 10 ^ n

/-- One per-endpoint result (src/backend/app.py lines 54-62, Pydantic
model `APIValidationResult`).  `headers` is the flat string mapping
`dict(response.headers)`. -/
structure APIValidationResult where
  endpoint : String
  status : ℕ
  response_time : ℚ
  valid_format : Bool
  headers : List (String × String)
  score : ℕ
  error : Option String := Option.none
  warnings : List String := []
deriving DecidableEq, Repr

/-- The raw outcome of one `requests.request` call, the external event
the engine reacts to (src/backend/app.py lines 163-170 and the two
`except` clauses):
* `response status elapsed body headers` — some HTTP response arrived;
  `body` abstracts `response.json()`: `some ks` means the body parses
  and `ks` is the collection membership `key in json_data` tests
  against (the top-level keys for a JSON object), `Option.none` means
  parsing raises `ValueError`;
* `sslFailure` — `requests.exceptions.SSLError`;
* `transportFailure msg` — any other `requests.exceptions.RequestException`
  whose `str(e)` is `msg`. -/
inductive ProbeOutcome where
  | response (status : ℕ) (elapsed : ℚ) (body : Option (List String))
      (headers : List (String × String))
  | sslFailure
  | transportFailure (msg : String)
deriving DecidableEq, Repr

/-- Format validation (src/backend/app.py lines 176-189).  Returns the
`valid_format` flag and the warnings this block appends.  The guard
`if api_request.expected_format:` is Python truthiness, so `None` and
the empty list both skip validation, leaving `valid_format = true`. -/
def validateFormat (expected : Option (List String)) (body : Option (List String)) :
    Bool × List String :=
  match expected with
  | Option.none => (true, [])
  | some keys =>
    if keys.isEmpty then (true, [])
    else
      match body with
      | Option.none => (false, ["Invalid JSON response"])
      | some present =>
        let missing := keys.filter (fun k => !present.contains k)
        if missing.isEmpty then (true, [])
        else (false, ["Missing keys: " ++ String.intercalate (", ") missing])

/-- Rate-limit header inspection (src/backend/app.py lines 191-195).
`response.headers['X-RateLimit-Remaining']` is a plain dict lookup: if
the key is absent it raises `KeyError`, which no `except` clause of
`monitor_api` catches, so it is modelled as `Except.error`. -/
def rateLimitWarnings (headers : List (String × String)) : Except String (List String) :=
  match headers.lookup ("X-RateLimit-Limit") with
  | Option.none => Except.ok []
  | some limit =>
    match headers.lookup ("X-RateLimit-Remaining") with
    | Option.none => Except.error ("KeyError: X-RateLimit-Remaining")
    | some remaining => Except.ok ["Rate limit: " ++ remaining ++ "/" ++ limit]

/-- Outcome of the per-endpoint `try/except` body:
* `succeeded r elapsed` — the `try` branch ran to its end; the loop adds
  `r` to the results, `r.score` to the running total, 1 to
  `stats.successful` and the unrounded `elapsed` to the response-time sum;
* `failed r` — an `except` branch ran; the loop adds `r` and increments
  `stats.failed`;
* `crashed msg` — an exception no `except` clause catches escaped the
  handler (the `KeyError` of `rateLimitWarnings`). -/
inductive StepResult where
  | succeeded (r : APIValidationResult) (elapsed : ℚ)
  | failed (r : APIValidationResult)
  | crashed (msg : String)
deriving DecidableEq, Repr

/-- Processing of one endpoint (src/backend/app.py lines 157-239: the
body of the `for` loop).  In the success branch the stored
`response_time` is rounded to 4 decimals while the score and the
statistics use the unrounded value, exactly as in the code.  The two
failure branches build the fixed zero results of the `except` clauses. -/
def probeStep (expected : Option (List String)) (endpoint : String) :
    ProbeOutcome → StepResult
  | ProbeOutcome.response status elapsed body headers =>
    let vf := validateFormat expected body
    match rateLimitWarnings headers with
    | Except.error e => StepResult.crashed e
    | Except.ok rlWarnings =>
      let score := calculate_api_score status elapsed vf.1
      StepResult.succeeded
        { endpoint := endpoint, status := status,
          response_time := roundTo 4 elapsed, valid_format := vf.1,
          headers := headers, score := score,
          error := Option.none, warnings := vf.2 ++ rlWarnings } elapsed
  | ProbeOutcome.sslFailure =>
    StepResult.failed
      { endpoint := endpoint, status := 0, response_time := 0,
        valid_format := false, headers := [], score := 0,
        error := some ("SSL Certificate verification failed"),
        warnings := ["Try disabling SSL validation if testing internally"] }
  | ProbeOutcome.transportFailure msg =>
    StepResult.failed
      { endpoint := endpoint, status := 0, response_time := 0,
        valid_format := false, headers := [], score := 0,
        error := some msg, warnings := [] }

/-- The mutable state threaded through the `for` loop of `monitor_api`:
the `results` list, `total_score`, and the `stats` entries updated
inside the loop (`successful`, `failed`, and the running
response-time sum that the code accumulates in
`stats['avg_response_time']` before dividing). -/
structure LoopState where
  results : List APIValidationResult
  total_score : ℕ
  successful : ℕ
  failed : ℕ
  rt_sum : ℚ
deriving DecidableEq, Repr

/-- The `for endpoint in api_request.endpoints:` loop
(src/backend/app.py lines 157-239).  Each input pairs an endpoint URL
with the outcome of its HTTP probe.  An uncaught exception
(`StepResult.crashed`) aborts the whole request, which FastAPI turns
into an HTTP 500; this is `Except.error`. -/
def monitorLoop (expected : Option (List String)) (s : LoopState) :
    List (String × ProbeOutcome) → Except String LoopState
  | [] => Except.ok s
  | (endpoint, outcome) :: rest =>
    match probeStep expected endpoint outcome with
    | StepResult.succeeded r elapsed =>
      monitorLoop expected
        { results := s.results ++ [r], total_score := s.total_score + r.score,
          successful := s.successful + 1, failed := s.failed,
          rt_sum := s.rt_sum + elapsed } rest
    | StepResult.failed r =>
      monitorLoop expected
        { results := s.results ++ [r], total_score := s.total_score,
          successful := s.successful, failed := s.failed + 1,
          rt_sum := s.rt_sum } rest
    | StepResult.crashed msg => Except.error msg

/-- The `stats` dictionary of the response (src/backend/app.py
lines 150-155 and 241-245). -/
structure RunStats where
  total_endpoints : ℕ
  successful : ℕ
  failed : ℕ
  avg_response_time : ℚ
deriving DecidableEq, Repr

/-- The response model (src/backend/app.py lines 64-69); `results` is
the list stored under the `"endpoints"` key of the response dict.
Wall-clock `execution_time` is not part of the functional model. -/
structure MonitorResponse where
  success : Bool
  results : List APIValidationResult
  overall_score : ℚ
  stats : RunStats
deriving DecidableEq, Repr

/-- The state of the loop variables before the `for` loop starts
(src/backend/app.py lines 148-155). -/
def loopInit : LoopState :=
  { results := [], total_score := 0, successful := 0, failed := 0, rt_sum := 0 }

/-- The `monitor_api` handler (src/backend/app.py lines 128-255),
given the request's `expected_format` and, for each endpoint in order,
the outcome of its probe.  After the loop:
`avg_response_time = round(rt_sum / successful, 4)` guarded by
`successful > 0`, `avg_score = total_score / len(endpoints)` guarded by
list truthiness, `success = avg_score > 70` on the unrounded mean, and
`overall_score = round(avg_score, 2)`. -/
def monitor_api (expected : Option (List String))
    (probes : List (String × ProbeOutcome)) : Except String MonitorResponse :=
  match monitorLoop expected loopInit probes with
  | Except.error e => Except.error e
  | Except.ok s =>
    let avg_response_time : ℚ :=
      if s.successful > 0 then roundTo 4 (s.rt_sum / s.successful) else 0
    let avg_score : ℚ :=
      if probes.isEmpty then 0 else (s.total_score : ℚ) / probes.length
    Except.ok
      { success := decide (avg_score > 70), results := s.results,
        overall_score := roundTo 2 avg_score,
        stats := { total_endpoints := probes.length, successful := s.successful,
                   failed := s.failed, avg_response_time := avg_response_time } }

/-- Timing model of the batch, read off the control flow of
src/backend/app.py lines 157-239: the `for` loop issues one blocking
`requests.request` call per endpoint, one after the other, in the
single thread of the handler, so the wall-clock duration of the batch
is the sum of the individual probe latencies (not their maximum). -/
def batchDuration (latencies : List ℚ) : ℚ :=
  latencies.sum

/-- Whether a probe outcome takes the `try` path of the loop body
(an HTTP response of any status arrived) rather than an `except` path. -/
def isSuccessOutcome : ProbeOutcome → Bool
  | ProbeOutcome.response _ _ _ _ => true
  | ProbeOutcome.sslFailure => false
  | ProbeOutcome.transportFailure _ => false

/-- The response `monitor_api` returns for an empty endpoint list. -/
def emptyRun : MonitorResponse :=
  { success := false, results := [], overall_score := 0,
    stats := { total_endpoints := 0, successful := 0, failed := 0,
               avg_response_time := 0 } }

/-- A probe of a healthy endpoint that answers 200 in 2 seconds with no
expected-format check: availability 50, performance 0, consistency 20,
score 70. -/
def slowOkProbe : String × ProbeOutcome :=
  ("https://api.example.com/slow", ProbeOutcome.response 200 2 Option.none [])

/-- The result `monitor_api` records for `slowOkProbe`. -/
def slowOkResult : APIValidationResult :=
  { endpoint := "https://api.example.com/slow", status := 200,
    response_time := roundTo 4 2, valid_format := true, headers := [],
    score := 70, error := Option.none, warnings := [] }

/-- A probe answering 200 in 1.5 seconds: availability 50,
performance 10, consistency 20, score 80. -/
def midOkProbe : String × ProbeOutcome :=
  ("https://api.example.com/mid", ProbeOutcome.response 200 (3/2) Option.none [])

/-- The result `monitor_api` records for `midOkProbe`. -/
def midOkResult : APIValidationResult :=
  { endpoint := "https://api.example.com/mid", status := 200,
    response_time := roundTo 4 (3/2), valid_format := true, headers := [],
    score := 80, error := Option.none, warnings := [] }

/-- A batch of 2001 endpoints: 2000 scoring 70 and one scoring 80, so
the mean score is 140080/2001 = 70.00499..., strictly above 70 but
rounding to 70.00. -/
def borderlineBatch : List (String × ProbeOutcome) :=
  List.replicate 2000 slowOkProbe ++ [midOkProbe]

/-- A two-endpoint batch: one 404 response (any HTTP response counts
as successful, whatever its status) and one transport failure. -/
def smallBatch : List (String × ProbeOutcome) :=
  [("https://a", ProbeOutcome.response 404 1 Option.none []),
   ("https://b", ProbeOutcome.transportFailure ("connection refused"))]

/-- The response `monitor_api` returns on `smallBatch`:
score 30 for the 404 endpoint (availability 0, performance 10,
consistency 20), score 0 for the failed one, mean 15. -/
def smallRun : MonitorResponse :=
  { success := false,
    results := [{ endpoint := "https://a", status := 404, response_time := 1,
                  valid_format := true, headers := [], score := 30,
                  error := Option.none, warnings := [] },
                { endpoint := "https://b", status := 0, response_time := 0,
                  valid_format := false, headers := [], score := 0,
                  error := some ("connection refused"), warnings := [] }],
    overall_score := 15,
    stats := { total_endpoints := 2, successful := 1, failed := 1,
               avg_response_time := 1 } }

/-! ### Lemmas about the monitoring loop -/

lemma base64Encode_userpass :
    base64Encode (utf8Bytes ("user" ++ ":" ++ "pass")) = "dXNlcjpwYXNz" := by decide

lemma monitorLoop_nil (e : Option (List String)) (s : LoopState) :
    monitorLoop e s [] = Except.ok s := rfl

lemma monitorLoop_cons_succeeded (e : Option (List String)) (s : LoopState)
    (ep : String) (o : ProbeOutcome) (rest : List (String × ProbeOutcome))
    (r : APIValidationResult) (t : ℚ)
    (h : probeStep e ep o = StepResult.succeeded r t) :
    monitorLoop e s ((ep, o) :: rest) =
      monitorLoop e
        { results := s.results ++ [r], total_score := s.total_score + r.score,
          successful := s.successful + 1, failed := s.failed,
          rt_sum := s.rt_sum + t } rest := by
  simp [monitorLoop, h]

lemma monitorLoop_cons_failed (e : Option (List String)) (s : LoopState)
    (ep : String) (o : ProbeOutcome) (rest : List (String × ProbeOutcome))
    (r : APIValidationResult)
    (h : probeStep e ep o = StepResult.failed r) :
    monitorLoop e s ((ep, o) :: rest) =
      monitorLoop e
        { results := s.results ++ [r], total_score := s.total_score,
          successful := s.successful, failed := s.failed + 1,
          rt_sum := s.rt_sum } rest := by
  simp [monitorLoop, h]

lemma monitorLoop_cons_crashed (e : Option (List String)) (s : LoopState)
    (ep : String) (o : ProbeOutcome) (rest : List (String × ProbeOutcome))
    (msg : String)
    (h : probeStep e ep o = StepResult.crashed msg) :
    monitorLoop e s ((ep, o) :: rest) = Except.error msg := by
  simp [monitorLoop, h]

lemma probeStep_succeeded_facts (e : Option (List String)) (ep : String)
    (o : ProbeOutcome) (r : APIValidationResult) (t : ℚ)
    (h : probeStep e ep o = StepResult.succeeded r t) :
    r.endpoint = ep ∧ isSuccessOutcome o = true := by
  cases o with
  | response st el body hs =>
    refine ⟨?_, rfl⟩
    simp only [probeStep] at h
    cases hrl : rateLimitWarnings hs with
    | error m => rw [hrl] at h; simp at h
    | ok w =>
      rw [hrl] at h
      simp only [StepResult.succeeded.injEq] at h
      rw [← h.1]
  | sslFailure => simp [probeStep] at h
  | transportFailure m => simp [probeStep] at h

lemma probeStep_failed_facts (e : Option (List String)) (ep : String)
    (o : ProbeOutcome) (r : APIValidationResult)
    (h : probeStep e ep o = StepResult.failed r) :
    r.endpoint = ep ∧ isSuccessOutcome o = false := by
  cases o with
  | response st el body hs =>
    exfalso
    simp only [probeStep] at h
    cases hrl : rateLimitWarnings hs with
    | error m => rw [hrl] at h; simp at h
    | ok w => rw [hrl] at h; simp at h
  | sslFailure =>
    simp only [probeStep, StepResult.failed.injEq] at h
    exact ⟨by rw [← h], rfl⟩
  | transportFailure m =>
    simp only [probeStep, StepResult.failed.injEq] at h
    exact ⟨by rw [← h], rfl⟩

lemma length_filter_add_length_filter_not {α : Type} (p : α → Bool) (l : List α) :
    (l.filter p).length + (l.filter (fun a => !p a)).length = l.length := by
  induction l with
  | nil => simp
  | cons a l ih =>
    simp only [List.filter_cons]
    cases hpa : p a <;> simp [hpa] <;> omega

lemma monitorLoop_ok_invariant (e : Option (List String))
    (probes : List (String × ProbeOutcome)) :
    ∀ (s s' : LoopState), monitorLoop e s probes = Except.ok s' →
      s'.results.map (fun res => res.endpoint) =
        s.results.map (fun res => res.endpoint) ++ probes.map Prod.fst ∧
      s'.successful =
        s.successful + (probes.filter (fun p => isSuccessOutcome p.2)).length ∧
      s'.failed =
        s.failed + (probes.filter (fun p => !isSuccessOutcome p.2)).length := by
  induction probes with
  | nil =>
    intro s s' h
    simp only [monitorLoop, Except.ok.injEq] at h
    subst h
    simp
  | cons p rest ih =>
    obtain ⟨ep, o⟩ := p
    intro s s' h
    cases hps : probeStep e ep o with
    | succeeded r t =>
      rw [monitorLoop_cons_succeeded e s ep o rest r t hps] at h
      obtain ⟨h1, h2, h3⟩ := ih _ _ h
      obtain ⟨hep, hso⟩ := probeStep_succeeded_facts e ep o r t hps
      refine ⟨?_, ?_, ?_⟩
      · rw [h1]; simp [hep]
      · rw [h2]; simp [List.filter_cons, hso]; omega
      · rw [h3]; simp [List.filter_cons, hso]
    | failed r =>
      rw [monitorLoop_cons_failed e s ep o rest r hps] at h
      obtain ⟨h1, h2, h3⟩ := ih _ _ h
      obtain ⟨hep, hso⟩ := probeStep_failed_facts e ep o r hps
      refine ⟨?_, ?_, ?_⟩
      · rw [h1]; simp [hep]
      · rw [h2]; simp [List.filter_cons, hso]
      · rw [h3]; simp [List.filter_cons, hso]; omega
    | crashed m =>
      rw [monitorLoop_cons_crashed e s ep o rest m hps] at h
      exact absurd h (by simp)

lemma monitorLoop_append_ok (e : Option (List String))
    (xs : List (String × ProbeOutcome)) :
    ∀ (s s' : LoopState), monitorLoop e s xs = Except.ok s' →
      ∀ ys, monitorLoop e s (xs ++ ys) = monitorLoop e s' ys := by
  induction xs with
  | nil =>
    intro s s' h ys
    simp only [monitorLoop, Except.ok.injEq] at h
    subst h
    simp
  | cons p rest ih =>
    obtain ⟨ep, o⟩ := p
    intro s s' h ys
    cases hps : probeStep e ep o with
    | succeeded r t =>
      rw [monitorLoop_cons_succeeded e s ep o rest r t hps] at h
      rw [List.cons_append, monitorLoop_cons_succeeded e s ep o (rest ++ ys) r t hps]
      exact ih _ _ h ys
    | failed r =>
      rw [monitorLoop_cons_failed e s ep o rest r hps] at h
      rw [List.cons_append, monitorLoop_cons_failed e s ep o (rest ++ ys) r hps]
      exact ih _ _ h ys
    | crashed m =>
      rw [monitorLoop_cons_crashed e s ep o rest m hps] at h
      exact absurd h (by simp)

lemma probeStep_slowOk :
    probeStep Option.none ("https://api.example.com/slow")
      (ProbeOutcome.response 200 2 Option.none []) =
      StepResult.succeeded slowOkResult 2 := by
  simp [probeStep, validateFormat, rateLimitWarnings, slowOkResult,
        calculate_api_score, availabilityScore, performanceScore, consistencyScore]
  norm_num

lemma probeStep_midOk :
    probeStep Option.none ("https://api.example.com/mid")
      (ProbeOutcome.response 200 (3/2) Option.none []) =
      StepResult.succeeded midOkResult (3/2) := by
  simp [probeStep, validateFormat, rateLimitWarnings, midOkResult,
        calculate_api_score, availabilityScore, performanceScore, consistencyScore]
  norm_num

lemma monitorLoop_cons_succeeded_pair (e : Option (List String)) (s : LoopState)
    (p : String × ProbeOutcome) (rest : List (String × ProbeOutcome))
    (r : APIValidationResult) (t : ℚ)
    (h : probeStep e p.1 p.2 = StepResult.succeeded r t) :
    monitorLoop e s (p :: rest) =
      monitorLoop e
        { results := s.results ++ [r], total_score := s.total_score + r.score,
          successful := s.successful + 1, failed := s.failed,
          rt_sum := s.rt_sum + t } rest := by
  obtain ⟨ep, o⟩ := p
  exact monitorLoop_cons_succeeded e s ep o rest r t h

lemma monitorLoop_replicate_slowOk (n : ℕ) :
    ∀ s : LoopState,
      monitorLoop Option.none s (List.replicate n slowOkProbe) =
        Except.ok { results := s.results ++ List.replicate n slowOkResult,
                    total_score := s.total_score + 70 * n,
                    successful := s.successful + n, failed := s.failed,
                    rt_sum := s.rt_sum + 2 * (n : ℚ) } := by
  have hsc : slowOkResult.score = 70 := rfl
  induction n with
  | zero =>
    intro s
    simp [monitorLoop]
  | succ n ih =>
    intro s
    rw [List.replicate_succ,
        monitorLoop_cons_succeeded_pair _ _ _ _ slowOkResult 2 probeStep_slowOk, ih]
    simp only [Except.ok.injEq, LoopState.mk.injEq, hsc]
    refine ⟨?_, ?_, ?_, trivial, ?_⟩
    · simp [List.append_assoc, List.replicate_succ]
    · omega
    · omega
    · push_cast
      ring

lemma monitorLoop_borderline :
    monitorLoop Option.none loopInit borderlineBatch =
      Except.ok { results := List.replicate 2000 slowOkResult ++ [midOkResult],
                  total_score := 140080, successful := 2001, failed := 0,
                  rt_sum := 4000 + 3/2 } := by
  have h1 := monitorLoop_replicate_slowOk 2000 loopInit
  have h2 := monitorLoop_append_ok Option.none (List.replicate 2000 slowOkProbe)
    loopInit _ h1 [midOkProbe]
  show monitorLoop Option.none loopInit
    (List.replicate 2000 slowOkProbe ++ [midOkProbe]) = _
  rw [h2,
      monitorLoop_cons_succeeded_pair _ _ _ _ midOkResult (3/2) probeStep_midOk,
      monitorLoop_nil]
  have hsc : midOkResult.score = 80 := rfl
  simp only [Except.ok.injEq, LoopState.mk.injEq, loopInit, hsc]
  norm_num

lemma foldr_max_replicate_one (n : ℕ) :
    (List.replicate (n + 1) (1:ℚ)).foldr max 0 = 1 := by
  induction n with
  | zero => norm_num [List.replicate]
  | succ n ih =>
    rw [List.replicate_succ, List.foldr_cons, ih]
    norm_num

/-! ### Claim theorems -/

/-- Claim C1 (refuted; the code contradicts the spec): the spec requires
the N probes of a run to execute concurrently, so that batch time is
bounded by the maximum per-endpoint latency plus overhead.  The `for`
loop of `monitor_api` issues one blocking `requests.request` call after
another in a single thread, so the batch duration is the *sum* of the
latencies (`batchDuration`): for every candidate overhead bound `c`
there is a batch of probes, each taking 1 second, whose sequential
duration strictly exceeds the maximum latency plus `c`. -/
theorem C1_sequential_batch_time (c : ℚ) :
    batchDuration (List.replicate (⌈c⌉.toNat + 2) 1) = ((⌈c⌉.toNat + 2 : ℕ) : ℚ) ∧
    (List.replicate (⌈c⌉.toNat + 2) (1:ℚ)).foldr max 0 = 1 ∧
    (List.replicate (⌈c⌉.toNat + 2) (1:ℚ)).foldr max 0 + c <
      batchDuration (List.replicate (⌈c⌉.toNat + 2) 1) := by
  have hsum : batchDuration (List.replicate (⌈c⌉.toNat + 2) (1:ℚ)) =
      ((⌈c⌉.toNat + 2 : ℕ) : ℚ) := by
    simp [batchDuration, List.sum_replicate, nsmul_eq_mul]
  have hmax := foldr_max_replicate_one (⌈c⌉.toNat + 1)
  have hc : c ≤ ((⌈c⌉.toNat : ℕ) : ℚ) := by
    calc c ≤ (⌈c⌉ : ℚ) := Int.le_ceil c
    _ ≤ ((⌈c⌉.toNat : ℤ) : ℚ) := by exact_mod_cast Int.self_le_toNat _
    _ = ((⌈c⌉.toNat : ℕ) : ℚ) := by push_cast; rfl
  refine ⟨hsum, hmax, ?_⟩
  rw [hsum, hmax]
  push_cast
  push_cast at hc
  linarith

/-- Claim C3: for every status code `s`, the availability component of
the score is exactly 50 if `s = 200`, 40 if `200 < s < 300`, 10 if
`s = 401` and 0 otherwise (including `s = 0`); it always lies in
the set 0, 10, 40, 50; and it is not monotonic in `s`
(250 < 401 yet 401 scores strictly below 250). -/
theorem C3_availability_table (s : ℕ) :
    availabilityScore s =
      (if s = 200 then 50 else if 200 < s ∧ s < 300 then 40
       else if s = 401 then 10 else 0) ∧
    (availabilityScore s = 0 ∨ availabilityScore s = 10 ∨
     availabilityScore s = 40 ∨ availabilityScore s = 50) ∧
    availabilityScore 0 = 0 ∧
    (250 < 401 ∧ availabilityScore 401 < availabilityScore 250) := by
  refine ⟨?_, ?_, by norm_num [availabilityScore], by norm_num [availabilityScore]⟩
  · unfold availabilityScore
    split_ifs <;> omega
  · unfold availabilityScore
    split_ifs <;> omega

/-- Claim C9: for all response times the performance component follows
the threshold table (30 below 0.5 s, 20 on [0.5, 1), 10 on [1, 2), 0
from 2 s on), lies in the set 0, 10, 20, 30, and is non-increasing in
the response time; the total score is a natural number capped at 100. -/
theorem C9_performance_monotone_and_cap (t t1 t2 : ℚ) (st : ℕ) (vf : Bool)
    (h : t1 ≤ t2) :
    (t < 1/2 → performanceScore t = 30) ∧
    (1/2 ≤ t ∧ t < 1 → performanceScore t = 20) ∧
    (1 ≤ t ∧ t < 2 → performanceScore t = 10) ∧
    (2 ≤ t → performanceScore t = 0) ∧
    (performanceScore t = 0 ∨ performanceScore t = 10 ∨
     performanceScore t = 20 ∨ performanceScore t = 30) ∧
    performanceScore t2 ≤ performanceScore t1 ∧
    calculate_api_score st t vf ≤ 100 := by
  refine ⟨?_, ?_, ?_, ?_, ?_, ?_, min_le_left 100 _⟩
  · intro ht
    unfold performanceScore
    rw [if_pos ht]
  · intro ht
    unfold performanceScore
    split_ifs <;> first | rfl | (exfalso; linarith [ht.1, ht.2])
  · intro ht
    unfold performanceScore
    split_ifs <;> first | rfl | (exfalso; linarith [ht.1, ht.2])
  · intro ht
    unfold performanceScore
    split_ifs <;> first | rfl | (exfalso; linarith)
  · unfold performanceScore
    split_ifs <;> simp
  · unfold performanceScore
    split_ifs <;> first | (exfalso; linarith) | norm_num

/-- Witness for C9 at `t = 1/4`, `t1 = 0`, `t2 = 1`, status 200,
valid format. -/
theorem C9_performance_monotone_and_cap_w :
    ((1:ℚ)/4 < 1/2 → performanceScore (1/4) = 30) ∧
    (1/2 ≤ (1:ℚ)/4 ∧ (1:ℚ)/4 < 1 → performanceScore (1/4) = 20) ∧
    (1 ≤ (1:ℚ)/4 ∧ (1:ℚ)/4 < 2 → performanceScore (1/4) = 10) ∧
    (2 ≤ (1:ℚ)/4 → performanceScore (1/4) = 0) ∧
    (performanceScore (1/4) = 0 ∨ performanceScore (1/4) = 10 ∨
     performanceScore (1/4) = 20 ∨ performanceScore (1/4) = 30) ∧
    performanceScore 1 ≤ performanceScore 0 ∧
    calculate_api_score 200 (1/4) true ≤ 100 :=
  C9_performance_monotone_and_cap (1/4) 0 1 200 true (by norm_num)

/-- Claim C2 (amended): `success` is computed from the *unrounded* mean
`m` of the per-endpoint scores (`total_score / len(endpoints)`, 0 for an
empty list): `success = true` iff `m > 70`, and a mean of exactly 70
gives `success = false`.  The reported `overall_score` is `m` rounded to
two decimals, so a run whose mean lies strictly between 70 and 70.005
reports `overall_score = 70` together with `success = true` (see the
counterexample); the claim as stated, with the iff against the
*reported* score, fails only in that window. -/
theorem C2_success_threshold (expected : Option (List String))
    (probes : List (String × ProbeOutcome)) (s : LoopState) (r : MonitorResponse)
    (m : ℚ)
    (hs : monitorLoop expected loopInit probes = Except.ok s)
    (hr : monitor_api expected probes = Except.ok r)
    (hm : m = if probes.isEmpty then 0 else (s.total_score : ℚ) / probes.length) :
    (r.success = true ↔ 70 < m) ∧ (m = 70 → r.success = false) ∧
    r.overall_score = roundTo 2 m := by
  unfold monitor_api at hr
  rw [hs] at hr
  simp only [Except.ok.injEq] at hr
  subst hr
  subst hm
  refine ⟨by simp [decide_eq_true_iff], ?_, rfl⟩
  intro h70
  show decide ((if probes.isEmpty then (0:ℚ) else (s.total_score : ℚ) / probes.length) > 70)
    = false
  rw [h70]
  norm_num

/-- Witness for C2 at the empty run (mean 0, success false). -/
theorem C2_success_threshold_w :
    (emptyRun.success = true ↔ (70:ℚ) < 0) ∧
    ((0:ℚ) = 70 → emptyRun.success = false) ∧
    emptyRun.overall_score = roundTo 2 0 :=
  C2_success_threshold Option.none [] loopInit emptyRun 0 rfl
    (by norm_num [monitor_api, monitorLoop, roundTo, loopInit, emptyRun]) rfl

/-- Claim C2 counterexample: on a batch of 2001 endpoints scoring
70 × 2000 and 80 × 1 the mean is 140080/2001 ≈ 70.005, so the run has
`success = true` while the reported `overall_score` is exactly 70 —
refuting "success is true iff the reported overall_score is strictly
greater than 70". -/
theorem C2_counterexample :
    (monitor_api Option.none borderlineBatch).map
      (fun r => (r.success, r.overall_score)) = Except.ok (true, 70) := by
  have hlen : borderlineBatch.length = 2001 := by
    rw [show borderlineBatch = List.replicate 2000 slowOkProbe ++ [midOkProbe] from rfl,
        List.length_append, List.length_replicate, List.length_singleton]
  have hne : borderlineBatch.isEmpty = false := rfl
  unfold monitor_api
  rw [monitorLoop_borderline]
  simp only [Except.map, hne, hlen, Bool.false_eq_true, if_false]
  norm_num [roundTo, round_eq, decide_eq_true_iff]

/-- Claim C4: the auth resolver produces exactly the documented header
for each variant — nothing for a missing config or the none variant;
`X-API-KEY: <key>` for ApiKey with a non-empty key and nothing for an
empty/missing key; `Authorization: Bearer <token>` for Bearer with a
non-empty token and nothing otherwise; `Authorization: Basic
base64(username:password)` for Basic only when both username and
password are present (non-empty), nothing otherwise; nothing for
OAuth2.  In the code the ApiKey header name is always `X-API-KEY`
(there is no caller-specified header-name field).  The resolver is a
total function, so incomplete credentials never raise. -/
theorem C4_auth_resolver :
    prepare_headers Option.none = [] ∧
    (∀ a : AuthConfig, a.auth_type = AuthType.NONE → prepare_headers (some a) = []) ∧
    (∀ a : AuthConfig, a.auth_type = AuthType.OAUTH2 → prepare_headers (some a) = []) ∧
    (∀ (a : AuthConfig) (k : String), a.auth_type = AuthType.API_KEY →
      a.api_key = some k → k ≠ "" →
      prepare_headers (some a) = [("X-API-KEY", k)]) ∧
    (∀ a : AuthConfig, a.auth_type = AuthType.API_KEY →
      truthyStr a.api_key = false → prepare_headers (some a) = []) ∧
    (∀ (a : AuthConfig) (tk : String), a.auth_type = AuthType.BEARER →
      a.bearer_token = some tk → tk ≠ "" →
      prepare_headers (some a) = [("Authorization", "Bearer " ++ tk)]) ∧
    (∀ a : AuthConfig, a.auth_type = AuthType.BEARER →
      truthyStr a.bearer_token = false → prepare_headers (some a) = []) ∧
    (∀ (a : AuthConfig) (u p : String), a.auth_type = AuthType.BASIC →
      a.username = some u → u ≠ "" → a.password = some p → p ≠ "" →
      prepare_headers (some a) =
        [("Authorization", "Basic " ++ base64Encode (utf8Bytes (u ++ ":" ++ p)))]) ∧
    (∀ a : AuthConfig, a.auth_type = AuthType.BASIC →
      (truthyStr a.username = false ∨ truthyStr a.password = false) →
      prepare_headers (some a) = []) := by
  refine ⟨rfl, ?_, ?_, ?_, ?_, ?_, ?_, ?_, ?_⟩
  · intro a ha
    simp [prepare_headers, ha]
  · intro a ha
    simp [prepare_headers, ha]
  · intro a k ha hk hk0
    simp [prepare_headers, ha, hk, truthyStr, String.isEmpty_iff, hk0]
  · intro a ha hfalse
    simp [prepare_headers, ha, hfalse]
  · intro a tk ha htk htk0
    simp [prepare_headers, ha, htk, truthyStr, String.isEmpty_iff, htk0]
  · intro a ha hfalse
    simp [prepare_headers, ha, hfalse]
  · intro a u p ha hu hu0 hp hp0
    simp [prepare_headers, ha, hu, hp, truthyStr, String.isEmpty_iff, hu0, hp0]
  · intro a ha hfalse
    rcases hfalse with hf | hf <;> simp [prepare_headers, ha, hf]

/-- Witness for C4: one concrete configuration per auth variant. -/
theorem C4_auth_resolver_w :
    prepare_headers (some { auth_type := AuthType.API_KEY, api_key := some ("secret") })
      = [("X-API-KEY", "secret")] ∧
    prepare_headers (some { auth_type := AuthType.BEARER, bearer_token := some ("tok") })
      = [("Authorization", "Bearer " ++ "tok")] ∧
    prepare_headers (some { auth_type := AuthType.BASIC, username := some ("user"),
                            password := some ("pass") })
      = [("Authorization", "Basic " ++ base64Encode (utf8Bytes ("user" ++ ":" ++ "pass")))] ∧
    prepare_headers (some { auth_type := AuthType.BASIC, username := some ("user") }) = [] ∧
    prepare_headers (some { auth_type := AuthType.OAUTH2, client_id := some ("cid") }) = [] := by
  obtain ⟨-, -, h3, h4, -, h6, -, h8, h9⟩ := C4_auth_resolver
  refine ⟨?_, ?_, ?_, ?_, ?_⟩
  · exact h4 _ ("secret") rfl rfl (by decide)
  · exact h6 _ ("tok") rfl rfl (by decide)
  · exact h8 _ ("user") ("pass") rfl rfl (by decide) rfl (by decide)
  · exact h9 _ rfl (Or.inr rfl)
  · exact h3 _ rfl

/-- Claim C5: both aggregate divisions are guarded — an empty endpoint
list yields `overall_score = 0` with `success = false` (and a zero mean
response time), and a completed run with zero successful probes reports
mean response time exactly 0; no division by zero occurs. -/
theorem C5_division_guards (expected : Option (List String))
    (probes : List (String × ProbeOutcome)) (r : MonitorResponse)
    (h : monitor_api expected probes = Except.ok r) :
    (probes = [] → r.overall_score = 0 ∧ r.success = false ∧
      r.stats.avg_response_time = 0) ∧
    (r.stats.successful = 0 → r.stats.avg_response_time = 0) := by
  constructor
  · rintro rfl
    have hemp : monitor_api expected ([] : List (String × ProbeOutcome)) =
        Except.ok emptyRun := by
      norm_num [monitor_api, monitorLoop, roundTo, loopInit, emptyRun]
    rw [hemp] at h
    simp only [Except.ok.injEq] at h
    subst h
    exact ⟨rfl, rfl, rfl⟩
  · intro hzero
    unfold monitor_api at h
    cases hm : monitorLoop expected loopInit probes with
    | error e =>
      rw [hm] at h
      simp at h
    | ok s =>
      rw [hm] at h
      simp only [Except.ok.injEq] at h
      subst h
      simp only at hzero
      show (if s.successful > 0 then roundTo 4 (s.rt_sum / s.successful) else 0) = 0
      simp [hzero]

/-- Witness for C5 at the empty run. -/
theorem C5_division_guards_w :
    (([] : List (String × ProbeOutcome)) = [] → emptyRun.overall_score = 0 ∧
      emptyRun.success = false ∧ emptyRun.stats.avg_response_time = 0) ∧
    (emptyRun.stats.successful = 0 → emptyRun.stats.avg_response_time = 0) :=
  C5_division_guards Option.none [] emptyRun
    (by norm_num [monitor_api, monitorLoop, roundTo, loopInit, emptyRun])

/-- Claim C6: transport and TLS failures produce the fixed zero result —
status 0, response time 0, invalid format, empty headers, score 0, the
error message (the fixed TLS text, or `str(e)` for other transport
errors, non-empty whenever the exception text is), exactly one advisory
warning for TLS failures and no warning for other transport failures —
and the loop continues with the remaining endpoints, the failure never
aborting the batch nor touching any other endpoint's result. -/
theorem C6_transport_failure_isolated (expected : Option (List String))
    (ep msg : String) (hmsg : msg ≠ "") :
    probeStep expected ep ProbeOutcome.sslFailure =
      StepResult.failed
        { endpoint := ep, status := 0, response_time := 0, valid_format := false,
          headers := [], score := 0,
          error := some ("SSL Certificate verification failed"),
          warnings := ["Try disabling SSL validation if testing internally"] } ∧
    probeStep expected ep (ProbeOutcome.transportFailure msg) =
      StepResult.failed
        { endpoint := ep, status := 0, response_time := 0, valid_format := false,
          headers := [], score := 0, error := some msg, warnings := [] } ∧
    some msg ≠ some ("") ∧
    (∀ (s : LoopState) (rest : List (String × ProbeOutcome)),
      monitorLoop expected s ((ep, ProbeOutcome.sslFailure) :: rest) =
        monitorLoop expected
          { results := s.results ++
              [{ endpoint := ep, status := 0, response_time := 0,
                 valid_format := false, headers := [], score := 0,
                 error := some ("SSL Certificate verification failed"),
                 warnings := ["Try disabling SSL validation if testing internally"] }],
            total_score := s.total_score, successful := s.successful,
            failed := s.failed + 1, rt_sum := s.rt_sum } rest ∧
      monitorLoop expected s ((ep, ProbeOutcome.transportFailure msg) :: rest) =
        monitorLoop expected
          { results := s.results ++
              [{ endpoint := ep, status := 0, response_time := 0,
                 valid_format := false, headers := [], score := 0,
                 error := some msg, warnings := [] }],
            total_score := s.total_score, successful := s.successful,
            failed := s.failed + 1, rt_sum := s.rt_sum } rest) := by
  refine ⟨rfl, rfl, by simp [hmsg], fun s rest => ⟨?_, ?_⟩⟩
  · exact monitorLoop_cons_failed expected s ep ProbeOutcome.sslFailure rest _ rfl
  · exact monitorLoop_cons_failed expected s ep (ProbeOutcome.transportFailure msg) rest _ rfl

/-- Witness for C6 at a concrete endpoint and error message. -/
theorem C6_transport_failure_isolated_w :
    probeStep Option.none ("https://x") (ProbeOutcome.transportFailure ("Connection refused")) =
      StepResult.failed
        { endpoint := "https://x", status := 0, response_time := 0, valid_format := false,
          headers := [], score := 0, error := some ("Connection refused"),
          warnings := [] } :=
  (C6_transport_failure_isolated Option.none ("https://x") ("Connection refused")
    (by decide)).2.1

/-- Claim C7: with a (non-empty) expected-keys list, an unparseable body
gives `valid_format = false` with warning "Invalid JSON response"; a
parsed body missing some expected keys gives `valid_format = false`
with a warning listing exactly the missing keys, comma-joined in the
order supplied; no missing keys gives `valid_format = true`; with no
expected-keys list `valid_format = true` whatever the body; and the
flag and warning flow into the endpoint's recorded result. -/
theorem C7_format_validation (keys present : List String) (body : Option (List String))
    (ep : String) (st : ℕ) (t : ℚ) (hk : keys ≠ []) :
    validateFormat (some keys) Option.none = (false, ["Invalid JSON response"]) ∧
    validateFormat (some keys) (some present) =
      (if (keys.filter (fun k => !present.contains k)).isEmpty then (true, [])
       else (false, ["Missing keys: " ++
         String.intercalate (", ") (keys.filter (fun k => !present.contains k))])) ∧
    validateFormat Option.none body = (true, []) ∧
    probeStep (some keys) ep (ProbeOutcome.response st t Option.none []) =
      StepResult.succeeded
        { endpoint := ep, status := st, response_time := roundTo 4 t,
          valid_format := false, headers := [],
          score := calculate_api_score st t false, error := Option.none,
          warnings := ["Invalid JSON response"] } t := by
  have hke : keys.isEmpty = false := by
    cases keys with
    | nil => exact absurd rfl hk
    | cons a l => rfl
  refine ⟨?_, ?_, rfl, ?_⟩
  · simp [validateFormat, hke]
  · simp [validateFormat, hke]
  · simp [probeStep, rateLimitWarnings, validateFormat, hke]

/-- Witness for C7 at `keys = ["id"]`, `present = ["other"]`. -/
theorem C7_format_validation_w :
    validateFormat (some ["id"]) Option.none = (false, ["Invalid JSON response"]) ∧
    validateFormat (some ["id"]) (some ["other"]) =
      (if ((["id"].filter (fun k => !(["other"].contains k))).isEmpty) then (true, [])
       else (false, ["Missing keys: " ++ String.intercalate (", ")
         (["id"].filter (fun k => !(["other"].contains k)))])) ∧
    validateFormat Option.none (some ["z"]) = (true, []) ∧
    probeStep (some ["id"]) ("https://x") (ProbeOutcome.response 200 1 Option.none []) =
      StepResult.succeeded
        { endpoint := "https://x", status := 200, response_time := roundTo 4 1,
          valid_format := false, headers := [],
          score := calculate_api_score 200 1 false, error := Option.none,
          warnings := ["Invalid JSON response"] } 1 :=
  C7_format_validation ["id"] ["other"] (some ["z"]) ("https://x") 200 1 (by decide)

/-- Claim C8 (refuted; genuine code bug): result construction is *not*
total over response header combinations.  A response carrying
`X-RateLimit-Limit` but no `X-RateLimit-Remaining` makes line 194 of
src/backend/app.py raise an uncaught `KeyError` (neither `except`
clause catches it), aborting the whole request instead of yielding an
`EndpointResult`.  When both headers are present the
"remaining/limit" warning is appended as the claim says. -/
theorem C8_ratelimit_keyerror :
    probeStep Option.none ("https://api.example.com")
      (ProbeOutcome.response 200 (1/10) Option.none [("X-RateLimit-Limit", "100")]) =
      StepResult.crashed ("KeyError: X-RateLimit-Remaining") ∧
    monitor_api Option.none
      [(("https://api.example.com"),
        ProbeOutcome.response 200 (1/10) Option.none [("X-RateLimit-Limit", "100")])] =
      Except.error ("KeyError: X-RateLimit-Remaining") ∧
    probeStep Option.none ("https://api.example.com")
      (ProbeOutcome.response 200 (1/10) Option.none
        [("X-RateLimit-Limit", "100"), ("X-RateLimit-Remaining", "5")]) =
      StepResult.succeeded
        { endpoint := "https://api.example.com", status := 200,
          response_time := roundTo 4 (1/10), valid_format := true,
          headers := [("X-RateLimit-Limit", "100"), ("X-RateLimit-Remaining", "5")],
          score := 100, error := Option.none,
          warnings := ["Rate limit: " ++ "5" ++ "/" ++ "100"] } (1/10) := by
  refine ⟨rfl, ?_, ?_⟩
  · unfold monitor_api
    rw [monitorLoop_cons_crashed Option.none loopInit ("https://api.example.com")
      (ProbeOutcome.response 200 (1/10) Option.none [("X-RateLimit-Limit", "100")]) []
      ("KeyError: X-RateLimit-Remaining") rfl]
  · simp [probeStep, rateLimitWarnings, validateFormat, List.lookup]
    norm_num [calculate_api_score, availabilityScore, performanceScore,
      consistencyScore]

/-- Claim C10: on every run that completes, the returned stats satisfy
`successful + failed = total_endpoints = number of input endpoints`,
`successful` counts exactly the probes that received an HTTP response
(of any status — a 404 increments `successful`), `failed` counts
exactly the transport/TLS failures, and the results list has exactly
one entry per input endpoint, in input order. -/
theorem C10_stats_accounting (expected : Option (List String))
    (probes : List (String × ProbeOutcome)) (r : MonitorResponse)
    (h : monitor_api expected probes = Except.ok r) :
    r.stats.total_endpoints = probes.length ∧
    r.stats.successful = (probes.filter (fun p => isSuccessOutcome p.2)).length ∧
    r.stats.failed = (probes.filter (fun p => !isSuccessOutcome p.2)).length ∧
    r.stats.successful + r.stats.failed = probes.length ∧
    r.results.map (fun res => res.endpoint) = probes.map Prod.fst := by
  unfold monitor_api at h
  cases hm : monitorLoop expected loopInit probes with
  | error e =>
    rw [hm] at h
    simp at h
  | ok s =>
    rw [hm] at h
    simp only [Except.ok.injEq] at h
    subst h
    obtain ⟨h1, h2, h3⟩ := monitorLoop_ok_invariant expected probes loopInit s hm
    simp only [loopInit] at h1 h2 h3
    have hadd := length_filter_add_length_filter_not (fun p => isSuccessOutcome p.2) probes
    refine ⟨rfl, ?_, ?_, ?_, ?_⟩
    · show s.successful = _
      omega
    · show s.failed = _
      omega
    · show s.successful + s.failed = _
      omega
    · show s.results.map (fun res => res.endpoint) = _
      simpa using h1

/-- Witness for C10 on the two-endpoint `smallBatch`. -/
theorem C10_stats_accounting_w :
    smallRun.stats.total_endpoints = smallBatch.length ∧
    smallRun.stats.successful =
      (smallBatch.filter (fun p => isSuccessOutcome p.2)).length ∧
    smallRun.stats.failed =
      (smallBatch.filter (fun p => !isSuccessOutcome p.2)).length ∧
    smallRun.stats.successful + smallRun.stats.failed = smallBatch.length ∧
    smallRun.results.map (fun res => res.endpoint) = smallBatch.map Prod.fst :=
  C10_stats_accounting Option.none smallBatch smallRun
    (by norm_num [monitor_api, monitorLoop, probeStep, validateFormat,
      rateLimitWarnings, calculate_api_score, availabilityScore, performanceScore,
      consistencyScore, roundTo, round_eq, loopInit, smallBatch, smallRun])
